import Mathlib

/-!
# Verification of the aim-chatbot response-streaming and session engine

A shallow embedding of the conversation store and response orchestrator of
the aim-chatbot repository (`src/App.tsx`, `src/services/geminiService.ts`,
`src/types.ts`).

The remote generative-AI provider is opaque: its behaviour on one request
is modelled as explicit environment data (the sequence of streamed chunks
and the terminal outcome for the streaming call, the poll count and final
URI for the video operation).  Store mutations performed by the
orchestrator are modelled as an explicit trace of mutation events, folded
over the message list exactly as the corresponding `setMessages` calls in
`App.tsx` do, so that temporal claims about the order of mutations are
statable.  Wall-clock waiting is modelled as the list of sleep durations
(milliseconds) the video poll loop requests.
-/

namespace AimChatbot

/-- `Role` from `types.ts`. -/
inductive Role where
  | USER
  | MODEL
deriving DecidableEq, Repr

/-- `GroundingSource` from `types.ts`: a `{title, uri}` citation. -/
structure GroundingSource where
  title : String
  uri : String
deriving DecidableEq, Repr

/-- The `inlineData` payload of an attachment (`types.ts`). -/
structure InlineData where
  data : String
  mimeType : String
deriving DecidableEq, Repr

/-- `Attachment` from `types.ts`. -/
structure Attachment where
  inlineData : InlineData
  previewUri : Option String := none
deriving DecidableEq, Repr

/-- The `video` field of a message (`types.ts`). -/
structure VideoRef where
  uri : String
  mimeType : Option String := none
deriving DecidableEq, Repr

/-- Feedback value `'up' | 'down'` from `types.ts`. -/
inductive Feedback where
  | up
  | down
deriving DecidableEq, Repr

/-- `Message` from `types.ts`.  Optional boolean fields (`isStreaming`,
`isError`) are modelled as `Bool` (absent = `false`); optional object
fields are modelled as `Option`. -/
structure Message where
  id : String
  role : Role
  content : String
  timestamp : Nat
  isStreaming : Bool := false
  groundingSources : Option (List GroundingSource) := none
  isError : Bool := false
  feedback : Option Feedback := none
  attachment : Option Attachment := none
  video : Option VideoRef := none
deriving DecidableEq, Repr

/-- The module-level mutable state of `geminiService.ts`: the singleton
`chatSession` handle.  Handles are modelled as natural numbers drawn from
a counter `nextHandle`, so that re-creation of a session is
distinguishable from reuse. -/
structure ServiceState where
  chatSession : Option Nat
  nextHandle : Nat
deriving DecidableEq, Repr

/-- `resetSession` from `geminiService.ts`: sets the singleton to `null`. -/
def resetSession (st : ServiceState) : ServiceState :=
  { st with chatSession := none }

/-! ## Raw provider chunks and their conversion (`streamGeminiResponse`) -/

/-- One `web` citation inside provider grounding metadata. -/
structure WebRef where
  title : String
  uri : String
deriving DecidableEq, Repr

/-- One entry of `candidates[0].groundingMetadata.groundingChunks`:
its `web` field may be absent. -/
structure RawGrounding where
  web : Option WebRef
deriving DecidableEq, Repr

/-- One raw chunk of the provider stream: `text` may be absent, and the
grounding-chunk list may be absent. -/
structure RawChunk where
  text : Option String
  groundingChunks : Option (List RawGrounding)
deriving DecidableEq, Repr

/-- A chunk as delivered to the `onChunk` callback in `App.tsx`: the text
(defaulted to `""`) and the optional converted sources list. -/
def DeliveredChunk : Type := String × Option (List GroundingSource)

instance : DecidableEq DeliveredChunk := by
  unfold DeliveredChunk
  infer_instance

/-- The conversion performed per chunk inside `streamGeminiResponse`:
`text = c.text || ''`; `sources = groundingChunks.map(c => c.web)
.filter(w => w).map(w => ({title: w.title, uri: w.uri}))` (absent when
`groundingChunks` is absent). -/
def convertChunk (c : RawChunk) : DeliveredChunk :=
  (c.text.getD "",
   c.groundingChunks.map (fun gcs =>
     (gcs.filterMap (fun g => g.web)).map (fun w => ⟨w.title, w.uri⟩)))

/-! ## Substring search (JS `String.prototype.includes`) -/

/-- Whether `pat` occurs as a contiguous substring of the character list
`hay` (JS `includes`). -/
def containsSub (hay pat : List Char) : Bool :=
  match hay with
  | [] => pat.isEmpty
  | _ :: rest => pat.isPrefixOf hay || containsSub rest pat

/-- JS `s.includes(pat)` on strings. -/
def strContains (s pat : String) : Bool :=
  containsSub s.data pat.data

/-! ## Error classification (`streamGeminiResponse` catch block) -/

def genericErrMsg : String := "An unexpected error occurred. Please try again."

def rateLimitMsg : String :=
  "You are sending requests too quickly. Please wait a moment before trying again."

def overloadedMsg : String :=
  "The AI service is currently overloaded. Please try again in a few seconds."

def apiConfigMsg : String :=
  "There is an issue with the API configuration. Please check the API key."

def safetyMsg : String :=
  "I cannot generate a response to that request due to safety guidelines."

def apiKeyMissingMsg : String := "API Key is missing. Please select an API key."

def videoFailMsg : String := "Failed to generate video. Please try again."

def videoInterimMsg : String := "Generating video... This may take a moment."

def videoDoneMsg : String := "Here is your generated video:"

/-- The `catch` block of `streamGeminiResponse`: maps the caught
failure's description (`error.message`, possibly absent, with `""` being
JS-falsy) to the user-facing message that is re-thrown. -/
def classifyError (m : Option String) : String :=
  match m with
  | none => genericErrMsg
  | some s =>
    if s = "" then genericErrMsg
    else if strContains s "429" then rateLimitMsg
    else if strContains s "503" then overloadedMsg
    else if strContains s "API key" then apiConfigMsg
    else if strContains s "SAFETY" then safetyMsg
    else "Error: " ++ s

/-! ## Environment of one request -/

/-- Behaviour of the provider stream for one call: the chunks it yields
in order, then optionally a thrown failure (with its `error.message`,
which may itself be absent).  A failure before any chunk is
`⟨[], some m⟩`. -/
structure StreamEnv where
  chunks : List RawChunk
  err : Option (Option String)
deriving DecidableEq, Repr

/-- Behaviour of the provider for one video-generation call.
`ok polls uri`: submission succeeds, the operation reports `done` after
`polls` refreshes, and the final response carries `uri` (absent when the
provider returned no URI).  `fail pollsBefore errMsg`: some call in the
`try` block throws after `pollsBefore` completed poll waits, with the
given description. -/
inductive VideoEnv where
  | ok (polls : Nat) (uri : Option String)
  | fail (pollsBefore : Nat) (errMsg : Option String)
deriving DecidableEq, Repr

/-- Environment for one `generateResponse` attempt: whichever remote call
the route performs reads its behaviour from the matching field. -/
structure Env where
  stream : StreamEnv
  video : VideoEnv
deriving DecidableEq, Repr

/-! ## `generateVideo` (`geminiService.ts`) -/

/-- `generateVideo` from `geminiService.ts`.  Returns the thrown or
returned result together with the list of sleep durations (ms) the poll
loop requested, in order.  The API-key check throws before the `try`
block, so its message is not remapped; every failure inside the `try`
block is collapsed by the `catch` to the fixed `videoFailMsg`; a missing
URI on a completed operation throws inside the `try` and is likewise
collapsed.  On success the API key is appended to the URI. -/
def generateVideo (apiKey : Option String) (env : VideoEnv) :
    Except String String × List Nat :=
  match apiKey with
  | none => (.error apiKeyMissingMsg, [])
  | some key =>
    match env with
    | .ok polls uri =>
      (match uri with
       | some u => .ok (u ++ "&key=" ++ key)
       | none => .error videoFailMsg,
       List.replicate polls 5000)
    | .fail before _ => (.error videoFailMsg, List.replicate before 5000)

/-! ## `streamGeminiResponse` (`geminiService.ts`) -/

/-- The chunks delivered to `onChunk` and the terminal outcome
(`none` = returned normally, `some msg` = threw `Error(msg)`) of one
`streamGeminiResponse` call.  With no API key it throws before the `try`
block (raw message, no chunks); otherwise every chunk of the environment
is converted and delivered, and a provider failure is classified by the
`catch` block and re-thrown. -/
def streamDelivered (apiKey : Option String) (env : StreamEnv) :
    List DeliveredChunk × Option String :=
  match apiKey with
  | none => ([], some apiKeyMissingMsg)
  | some _ => (env.chunks.map convertChunk, env.err.map classifyError)

/-- The effect of one `streamGeminiResponse` call on the module-level
session state: untouched when the key is missing (thrown before the
session logic) or when an attachment routes to the single-turn
multimodal call; otherwise the chat session is created lazily from the
handle counter when absent and reused when present. -/
def streamSession (apiKey : Option String) (attachment : Option Attachment)
    (st : ServiceState) : ServiceState :=
  match apiKey with
  | none => st
  | some _ =>
    if attachment.isSome then st
    else
      match st.chatSession with
      | some _ => st
      | none => ⟨some st.nextHandle, st.nextHandle + 1⟩

/-! ## Routing (`App.tsx`, `generateResponse`) -/

/-- JS `String.prototype.toLowerCase`, as a per-character map (the
trigger phrases are ASCII). -/
def strToLower (s : String) : String :=
  ⟨s.data.map Char.toLower⟩

/-- `isVideoRequest` from `App.tsx`: no attachment, and the lowercased
prompt contains one of the three fixed trigger phrases. -/
def isVideoRequest (prompt : String) (attachment : Option Attachment) : Bool :=
  attachment.isNone &&
    (strContains (strToLower prompt) "generate a video" ||
     strContains (strToLower prompt) "create a video" ||
     strContains (strToLower prompt) "make a video")

/-- The three request routes of the orchestrator. -/
inductive Route where
  | multimodal
  | video
  | chat
deriving DecidableEq, Repr

/-- The route `generateResponse` takes, as the code computes it:
`isVideoRequest` is tested first in `App.tsx` (it already excludes
attachments), and otherwise `streamGeminiResponse` branches on the
attachment. -/
def classifyRoute (prompt : String) (attachment : Option Attachment) : Route :=
  if isVideoRequest prompt attachment then .video
  else if attachment.isSome then .multimodal
  else .chat

/-- Modelled from the spec's routing policy, first match wins:
attachment present → multimodal; else video phrase → video; else chat.
Stated separately so the code's routing can be proved to refine it. -/
def routeSpecOrder (prompt : String) (attachment : Option Attachment) : Route :=
  if attachment.isSome then .multimodal
  else if strContains (strToLower prompt) "generate a video" ||
          strContains (strToLower prompt) "create a video" ||
          strContains (strToLower prompt) "make a video" then .video
  else .chat

/-! ## Store mutations of one attempt, as an explicit trace -/

/-- One `setMessages` point mutation performed by `generateResponse`
for the target message id, in the order the code issues them:
`chunk` is the `onChunk` fold, `interimVideo` the synchronous
"Generating video..." overwrite, `videoDone` the success finalization of
the video route, `errorFinalize` the `catch` block's rewrite, and
`clearStreaming` the `finally` block's flag clear. -/
inductive Mut where
  | chunk (text : String) (sources : Option (List GroundingSource))
  | interimVideo
  | videoDone (uri : String)
  | errorFinalize (msg : String)
  | clearStreaming
deriving DecidableEq, Repr

/-- `App.tsx`'s ubiquitous point-mutation shape:
`prev.map(msg => msg.id === id ? F(msg) : msg)`. -/
def patchById (id : String) (f : Message → Message) (msgs : List Message) :
    List Message :=
  msgs.map (fun m => if m.id = id then f m else m)

/-- The effect of one mutation event on the matching message. -/
def applyMutMsg (mu : Mut) (m : Message) : Message :=
  match mu with
  | .chunk t s =>
    let m1 := { m with content := m.content ++ t }
    match s with
    | some ss => if ss.length > 0 then { m1 with groundingSources := some ss } else m1
    | none => m1
  | .interimVideo => { m with content := videoInterimMsg }
  | .videoDone uri =>
    { m with content := videoDoneMsg, video := some ⟨uri, none⟩ }
  | .errorFinalize msg =>
    { m with content := msg, isStreaming := false, isError := true }
  | .clearStreaming => { m with isStreaming := false }

/-- One mutation event applied to the whole log, exactly as the
corresponding `setMessages(prev => prev.map(...))` call does. -/
def applyMut (id : String) (mu : Mut) (msgs : List Message) : List Message :=
  patchById id (applyMutMsg mu) msgs

/-- A whole trace applied to the log, first event first. -/
def applyTrace (id : String) (trace : List Mut) (msgs : List Message) :
    List Message :=
  trace.foldl (fun ms mu => applyMut id mu ms) msgs

/-- A whole trace applied to a single message. -/
def applyTraceMsg (trace : List Mut) (m : Message) : Message :=
  trace.foldl (fun m mu => applyMutMsg mu m) m

/-- `error.message || fallback` in `App.tsx`'s catch block (the thrown
message is a string; `""` is JS-falsy). -/
def appErrContent (m : String) : String :=
  if m = "" then "I'm sorry, I encountered an error while processing your request."
  else m

/-! ## `generateResponse` (`App.tsx`) -/

/-- The trace of Store mutations one `generateResponse` attempt performs
for its target message, in order.  Video route: the synchronous interim
overwrite, then either the success finalization or the `catch` rewrite;
stream route: one `chunk` mutation per delivered chunk, then the `catch`
rewrite when the call threw.  In both cases the `finally` block appends a
final `clearStreaming`. -/
def genTrace (apiKey : Option String) (prompt : String)
    (attachment : Option Attachment) (env : Env) : List Mut :=
  if isVideoRequest prompt attachment then
    match (generateVideo apiKey env.video).1 with
    | .ok uri => [.interimVideo, .videoDone uri, .clearStreaming]
    | .error m => [.interimVideo, .errorFinalize (appErrContent m), .clearStreaming]
  else
    let r := streamDelivered apiKey env.stream
    let chunkMuts := r.1.map (fun c => Mut.chunk c.1 c.2)
    match r.2 with
    | none => chunkMuts ++ [.clearStreaming]
    | some m => chunkMuts ++ [.errorFinalize (appErrContent m), .clearStreaming]

/-- The classified user-facing error message of one attempt, when the
attempt fails (`none` on success).  This is exactly the content the
`catch` block writes into the target message. -/
def genOutcome (apiKey : Option String) (prompt : String)
    (attachment : Option Attachment) (env : Env) : Option String :=
  if isVideoRequest prompt attachment then
    match (generateVideo apiKey env.video).1 with
    | .ok _ => none
    | .error m => some (appErrContent m)
  else
    (streamDelivered apiKey env.stream).2.map appErrContent

/-- The session state after one `generateResponse` attempt: the stream
route first runs the service's own session logic; then, on any error in
any route, the `catch` block calls `resetSession`. -/
def genSession (apiKey : Option String) (prompt : String)
    (attachment : Option Attachment) (env : Env) (st : ServiceState) :
    ServiceState :=
  let st1 :=
    if isVideoRequest prompt attachment then st
    else streamSession apiKey attachment st
  match genOutcome apiKey prompt attachment env with
  | none => st1
  | some _ => resetSession st1

/-- `generateResponse` from `App.tsx`: the final message log and service
state of one attempt, obtained by folding the attempt's mutation trace
over the log. -/
def generateResponse (apiKey : Option String) (prompt : String)
    (attachment : Option Attachment) (botMessageId : String) (env : Env)
    (msgs : List Message) (st : ServiceState) :
    List Message × ServiceState :=
  (applyTrace botMessageId (genTrace apiKey prompt attachment env) msgs,
   genSession apiKey prompt attachment env st)

/-! ## UI-facing handlers (`App.tsx`) -/

/-- `handleSendMessage` from `App.tsx`: append the USER message and the
empty streaming MODEL placeholder, then run `generateResponse` for the
placeholder's id.  The fresh `uuidv4()` ids and `Date.now()` timestamps
are passed as parameters. -/
def handleSendMessage (text : String) (attachment : Option Attachment)
    (userId botId : String) (ts : Nat) (apiKey : Option String) (env : Env)
    (msgs : List Message) (st : ServiceState) :
    List Message × ServiceState :=
  generateResponse apiKey text attachment botId env
    (msgs ++
      [{ id := userId, role := .USER, content := text, timestamp := ts,
         attachment := attachment },
       { id := botId, role := .MODEL, content := "", timestamp := ts,
         isStreaming := true }]) st

/-- The reset patch `handleRetry` applies to the failed MODEL message. -/
def retryResetFn (m : Message) : Message :=
  { m with content := "", isError := false, isStreaming := true,
           groundingSources := none, video := none }

/-- `handleRetry` from `App.tsx`: locate the message by id (refuse when
absent); require the immediately preceding log entry to exist and be
USER-authored (refuse otherwise, with no Store mutation); then reset the
message in place and re-run `generateResponse` with the preceding USER
message's content and attachment.  JS `messages[-1]` is `undefined`,
hence the explicit index-zero guard. -/
def handleRetry (botMessageId : String) (apiKey : Option String) (env : Env)
    (msgs : List Message) (st : ServiceState) :
    List Message × ServiceState :=
  match msgs.findIdx? (fun m => m.id = botMessageId) with
  | none => (msgs, st)
  | some i =>
    match (if i = 0 then none else msgs[i - 1]?) with
    | none => (msgs, st)
    | some prev =>
      if prev.role = Role.USER then
        generateResponse apiKey prev.content prev.attachment botMessageId env
          (patchById botMessageId retryResetFn msgs) st
      else (msgs, st)

/-- `handleFeedback` from `App.tsx`: toggle the feedback of the matching
message (same value again clears it). -/
def handleFeedback (messageId : String) (ty : Feedback)
    (msgs : List Message) : List Message :=
  patchById messageId
    (fun m => { m with feedback := if m.feedback = some ty then none else some ty })
    msgs

/-- `handleClearChat` from `App.tsx`: reset the session and empty the log. -/
def handleClearChat (_msgs : List Message) (st : ServiceState) :
    List Message × ServiceState :=
  ([], resetSession st)

/-! ## Derived notions used by the claims -/

/-- The concatenation of the delivered chunks' text, in delivery order. -/
def concatTexts : List DeliveredChunk → String
  | [] => ""
  | c :: cs => c.1 ++ concatTexts cs

/-- The chunk mutations corresponding to a delivered-chunk list. -/
def chunkMuts (cs : List DeliveredChunk) : List Mut :=
  cs.map (fun c => Mut.chunk c.1 c.2)

/-- The sources list of the last delivered chunk whose sources list is
present and non-empty, if any. -/
def lastSources : List DeliveredChunk → Option (List GroundingSource)
  | [] => none
  | c :: cs =>
    match lastSources cs with
    | some s => some s
    | none =>
      match c.2 with
      | some ss => if ss.length > 0 then some ss else none
      | none => none

/-- Whether a mutation event writes `isStreaming := false`. -/
def setsStreamingFalse : Mut → Bool
  | .errorFinalize _ => true
  | .clearStreaming => true
  | _ => false

/-! ## Helper lemmas -/

theorem applyMutMsg_id (mu : Mut) (m : Message) :
    (applyMutMsg mu m).id = m.id := by
  cases mu with
  | chunk t s =>
    cases s with
    | none => rfl
    | some ss =>
      dsimp only [applyMutMsg]
      split <;> rfl
  | interimVideo => rfl
  | videoDone u => rfl
  | errorFinalize e => rfl
  | clearStreaming => rfl

theorem patchById_patchById (id : String) (f g : Message → Message)
    (hg : ∀ m, (g m).id = m.id) (msgs : List Message) :
    patchById id f (patchById id g msgs)
      = patchById id (fun m => f (g m)) msgs := by
  unfold patchById
  rw [List.map_map]
  apply List.map_congr_left
  intro m _
  by_cases h : m.id = id
  · simp [Function.comp, h, hg m]
  · simp [Function.comp, h]

theorem patchById_id_map (id : String) (msgs : List Message) :
    patchById id (fun m => m) msgs = msgs := by
  unfold patchById
  simp

theorem applyTrace_eq_patchById (id : String) (trace : List Mut)
    (msgs : List Message) :
    applyTrace id trace msgs = patchById id (applyTraceMsg trace) msgs := by
  induction trace generalizing msgs with
  | nil =>
    show msgs = patchById id (fun m => m) msgs
    rw [patchById_id_map]
  | cons mu rest ih =>
    show applyTrace id rest (applyMut id mu msgs) = _
    rw [ih, applyMut, patchById_patchById id _ _ (applyMutMsg_id mu)]
    rfl

theorem applyTraceMsg_append (t1 t2 : List Mut) (m : Message) :
    applyTraceMsg (t1 ++ t2) m = applyTraceMsg t2 (applyTraceMsg t1 m) := by
  simp [applyTraceMsg, List.foldl_append]

theorem applyTraceMsg_id (trace : List Mut) (m : Message) :
    (applyTraceMsg trace m).id = m.id := by
  induction trace generalizing m with
  | nil => rfl
  | cons mu rest ih =>
    show (applyTraceMsg rest (applyMutMsg mu m)).id = m.id
    rw [ih, applyMutMsg_id]

/-- Full description of a chunk mutation on the matching message. -/
theorem applyMutMsg_chunk (t : String) (s : Option (List GroundingSource))
    (m : Message) :
    applyMutMsg (.chunk t s) m
      = { m with content := m.content ++ t,
                 groundingSources :=
                   match s with
                   | some ss => if ss.length > 0 then some ss
                                else m.groundingSources
                   | none => m.groundingSources } := by
  cases s with
  | none => rfl
  | some ss =>
    dsimp only [applyMutMsg]
    by_cases hlen : ss.length > 0
    · simp [hlen]
    · simp [hlen]

/-- Content accumulation over a pure chunk trace. -/
theorem applyTraceMsg_chunks_content (cs : List DeliveredChunk) (m : Message) :
    (applyTraceMsg (chunkMuts cs) m).content = m.content ++ concatTexts cs := by
  induction cs generalizing m with
  | nil =>
    show m.content = m.content ++ ""
    rw [String.append_empty]
  | cons c rest ih =>
    obtain ⟨t, s⟩ := c
    show (applyTraceMsg (chunkMuts rest) (applyMutMsg (.chunk t s) m)).content = _
    rw [ih, applyMutMsg_chunk]
    show (m.content ++ t) ++ concatTexts rest = m.content ++ (t ++ concatTexts rest)
    rw [String.append_assoc]

/-- Grounding sources over a pure chunk trace: last nonempty wins,
otherwise unchanged. -/
theorem applyTraceMsg_chunks_sources (cs : List DeliveredChunk) (m : Message) :
    (applyTraceMsg (chunkMuts cs) m).groundingSources
      = match lastSources cs with
        | some s => some s
        | none => m.groundingSources := by
  induction cs generalizing m with
  | nil => rfl
  | cons c rest ih =>
    obtain ⟨t, s⟩ := c
    show (applyTraceMsg (chunkMuts rest) (applyMutMsg (.chunk t s) m)).groundingSources = _
    rw [ih, applyMutMsg_chunk]
    cases hrest : lastSources rest with
    | some s2 => simp [lastSources, hrest]
    | none =>
      cases s with
      | none => simp [lastSources, hrest]
      | some ss =>
        by_cases hlen : ss.length > 0 <;> simp [lastSources, hrest, hlen]

/-- On a failing attempt the mutation trace ends with the `catch`
rewrite followed by the `finally` clear, and the prefix is pure chunk
mutations. -/
theorem genTrace_error (apiKey : Option String) (prompt : String)
    (attachment : Option Attachment) (env : Env) (emsg : String)
    (h : genOutcome apiKey prompt attachment env = some emsg) :
    ∃ pre, genTrace apiKey prompt attachment env
        = pre ++ [.errorFinalize emsg, .clearStreaming] ∧
      pre.filter setsStreamingFalse = [] := by
  unfold genOutcome at h
  unfold genTrace
  by_cases hv : isVideoRequest prompt attachment
  · simp only [hv, if_true] at h ⊢
    cases hgv : (generateVideo apiKey env.video).1 with
    | ok u => rw [hgv] at h; simp at h
    | error m =>
      rw [hgv] at h
      simp only [Option.some.injEq] at h
      exact ⟨[.interimVideo], by simp [h, setsStreamingFalse]⟩
  · simp only [hv, Bool.false_eq_true, if_false] at h ⊢
    cases he : (streamDelivered apiKey env.stream).2 with
    | none => rw [he] at h; simp at h
    | some m =>
      rw [he] at h
      simp only [Option.map_some', Option.some.injEq] at h
      refine ⟨(streamDelivered apiKey env.stream).1.map
        (fun c => Mut.chunk c.1 c.2), by simp [he, h], ?_⟩
      simp [List.filter_map, setsStreamingFalse, Function.comp]

/-- On a successful attempt the trace is either the video success trace
or the chunk trace, each followed by exactly the `finally` clear. -/
theorem genTrace_ok (apiKey : Option String) (prompt : String)
    (attachment : Option Attachment) (env : Env)
    (h : genOutcome apiKey prompt attachment env = none) :
    (∃ uri, genTrace apiKey prompt attachment env
        = [.interimVideo, .videoDone uri, .clearStreaming]) ∨
    (genTrace apiKey prompt attachment env
        = chunkMuts (streamDelivered apiKey env.stream).1 ++ [.clearStreaming]) := by
  unfold genOutcome at h
  unfold genTrace
  by_cases hv : isVideoRequest prompt attachment
  · simp only [hv, if_true] at h ⊢
    cases hgv : (generateVideo apiKey env.video).1 with
    | ok u => exact Or.inl ⟨u, by simp [hgv]⟩
    | error m => rw [hgv] at h; simp at h
  · simp only [hv, if_false] at h ⊢
    cases he : (streamDelivered apiKey env.stream).2 with
    | none => exact Or.inr (by simp [he, chunkMuts])
    | some m => rw [he] at h; simp at h

/-- On any failing attempt the session handle ends up absent. -/
theorem genSession_error (apiKey : Option String) (prompt : String)
    (attachment : Option Attachment) (env : Env) (st : ServiceState)
    (emsg : String) (h : genOutcome apiKey prompt attachment env = some emsg) :
    (genSession apiKey prompt attachment env st).chatSession = none := by
  unfold genSession
  rw [h]
  rfl

/-- On a successful attempt the session is the one the service left. -/
theorem genSession_ok (apiKey : Option String) (prompt : String)
    (attachment : Option Attachment) (env : Env) (st : ServiceState)
    (h : genOutcome apiKey prompt attachment env = none) :
    genSession apiKey prompt attachment env st
      = if isVideoRequest prompt attachment then st
        else streamSession apiKey attachment st := by
  unfold genSession
  rw [h]

/-- Final fields of the matching message after an error-tail trace. -/
theorem applyTraceMsg_error_tail (pre : List Mut) (emsg : String) (m : Message) :
    (applyTraceMsg (pre ++ [.errorFinalize emsg, .clearStreaming]) m).content = emsg ∧
    (applyTraceMsg (pre ++ [.errorFinalize emsg, .clearStreaming]) m).isStreaming = false ∧
    (applyTraceMsg (pre ++ [.errorFinalize emsg, .clearStreaming]) m).isError = true := by
  rw [applyTraceMsg_append]
  exact ⟨rfl, rfl, rfl⟩

/-- Members of a patched log with the target id come from a member of
the original log with that id, transformed by the patch. -/
theorem mem_patchById (id : String) (f : Message → Message) (msgs : List Message)
    (m : Message) (hm : m ∈ patchById id f msgs) (hid : m.id = id) :
    ∃ m0, m0 ∈ msgs ∧ m0.id = id ∧ m = f m0 := by
  unfold patchById at hm
  obtain ⟨m0, hm0, rfl⟩ := List.mem_map.1 hm
  by_cases h : m0.id = id
  · rw [if_pos h]
    exact ⟨m0, hm0, h, rfl⟩
  · rw [if_neg h] at hid
    exact absurd hid h

theorem patchById_length (id : String) (f : Message → Message)
    (msgs : List Message) : (patchById id f msgs).length = msgs.length := by
  unfold patchById
  exact List.length_map _ _

theorem patchById_ids (id : String) (f : Message → Message)
    (hf : ∀ m, (f m).id = m.id) (msgs : List Message) :
    (patchById id f msgs).map Message.id = msgs.map Message.id := by
  unfold patchById
  rw [List.map_map]
  apply List.map_congr_left
  intro m _
  by_cases h : m.id = id
  · simp [Function.comp, h, hf m]
  · simp [Function.comp, h]

theorem patchById_get_frame (id : String) (f : Message → Message)
    (msgs : List Message) (i : Nat) (m : Message)
    (h : msgs[i]? = some m) (hne : m.id ≠ id) :
    (patchById id f msgs)[i]? = some m := by
  unfold patchById
  rw [List.getElem?_map, h]
  simp [hne]

theorem patchById_no_match (id : String) (f : Message → Message)
    (msgs : List Message) (h : ∀ m ∈ msgs, m.id ≠ id) :
    patchById id f msgs = msgs := by
  unfold patchById
  have : ∀ m ∈ msgs, (if m.id = id then f m else m) = m := by
    intro m hm
    rw [if_neg (h m hm)]
  rw [List.map_congr_left this]
  simp

/-- Chunk mutations never write the streaming flag. -/
theorem chunkMuts_filter (cs : List DeliveredChunk) :
    (chunkMuts cs).filter setsStreamingFalse = [] := by
  simp [chunkMuts, List.filter_map, setsStreamingFalse, Function.comp]

/-- No mutation event ever sets the streaming flag back to `true`. -/
theorem applyMutMsg_flag_monotone (mu : Mut) (m : Message)
    (h : m.isStreaming = false) : (applyMutMsg mu m).isStreaming = false := by
  cases mu with
  | chunk t s => rw [applyMutMsg_chunk]; exact h
  | interimVideo => exact h
  | videoDone u => exact h
  | errorFinalize e => rfl
  | clearStreaming => rfl

/-! ## Claim theorems -/

/-- Claim C4: the route of every send is chosen by first match in order —
attachment present → multimodal (single-turn, session state neither read
nor written); else a lowercased video trigger phrase → video; otherwise
contextual chat.  In particular a video phrase together with an
attachment goes to the multimodal route.  The code's routing
(`classifyRoute`, from `isVideoRequest` in `App.tsx` and the attachment
branch of `streamGeminiResponse`) coincides with the spec's first-match
policy (`routeSpecOrder`). -/
theorem routing_first_match (prompt : String) (attachment : Option Attachment) :
    classifyRoute prompt attachment = routeSpecOrder prompt attachment ∧
    (∀ a : Attachment, classifyRoute prompt (some a) = Route.multimodal) ∧
    (∀ (k : Option String) (a : Attachment) (st : ServiceState),
        streamSession k (some a) st = st) := by
  refine ⟨?_, ?_, ?_⟩
  · unfold classifyRoute routeSpecOrder isVideoRequest
    cases attachment with
    | some a => simp
    | none =>
      by_cases h : (strContains (strToLower prompt) "generate a video" ||
          strContains (strToLower prompt) "create a video" ||
          strContains (strToLower prompt) "make a video") = true
      · simp [h]
      · simp [h]
  · intro a
    unfold classifyRoute isVideoRequest
    simp
  · intro k a st
    cases k with
    | none => rfl
    | some key => simp [streamSession]

/-- Claim C3 counterexample: the claim quantifies over every failure on any
route, but (1) on the video route `generateVideo` collapses every
failure — here one whose description contains "429" — to the fixed
message `videoFailMsg` instead of the rate-limited advisory, and (2) on
the stream route the unclassified case is not the raw provider message
but that message prefixed with "Error: ". -/
theorem error_taxonomy_counterexample :
    genOutcome (some "k") "please create a video of a cat" none
        ⟨⟨[], none⟩, .fail 0 (some "got 429 rate limit")⟩ = some videoFailMsg ∧
    strContains "got 429 rate limit" "429" = true ∧
    videoFailMsg ≠ rateLimitMsg ∧
    classifyError (some "boom") = "Error: boom" ∧
    ("Error: boom" : String) ≠ "boom" := by
  refine ⟨by decide, by decide, ?_, by decide, ?_⟩ <;> decide

/-- Claim C3 amended: on the chat and multimodal (stream) routes, the
user-facing message of a remote failure is determined by inspecting the
failure's description in order — "429" → rate-limited, else "503" →
overloaded, else "API key" → configuration problem, else "SAFETY" →
blocked by safety policy, else the raw message prefixed with "Error: ",
with a generic fallback when the description is absent (or empty, which
JS treats as absent); on the video route every remote failure maps to
the fixed message `videoFailMsg` regardless of its description. -/
theorem error_taxonomy_amended :
    (∀ s : String, strContains s "429" = true →
        classifyError (some s) = rateLimitMsg) ∧
    (∀ s : String, strContains s "429" = false → strContains s "503" = true →
        classifyError (some s) = overloadedMsg) ∧
    (∀ s : String, strContains s "429" = false → strContains s "503" = false →
        strContains s "API key" = true → classifyError (some s) = apiConfigMsg) ∧
    (∀ s : String, strContains s "429" = false → strContains s "503" = false →
        strContains s "API key" = false → strContains s "SAFETY" = true →
        classifyError (some s) = safetyMsg) ∧
    (∀ s : String, s ≠ "" → strContains s "429" = false →
        strContains s "503" = false → strContains s "API key" = false →
        strContains s "SAFETY" = false → classifyError (some s) = "Error: " ++ s) ∧
    (classifyError none = genericErrMsg ∧ classifyError (some "") = genericErrMsg) ∧
    (∀ (k : String) (env : StreamEnv) (m : Option String), env.err = some m →
        (streamDelivered (some k) env).2 = some (classifyError m)) ∧
    (∀ (k : String) (polls : Nat) (m : Option String),
        (generateVideo (some k) (.fail polls m)).1 = Except.error videoFailMsg) := by
  refine ⟨?_, ?_, ?_, ?_, ?_, ⟨rfl, rfl⟩, ?_, ?_⟩
  · intro s h
    by_cases hs : s = ""
    · subst hs; exact absurd h (by decide)
    · simp [classifyError, hs, h]
  · intro s h1 h2
    by_cases hs : s = ""
    · subst hs; exact absurd h2 (by decide)
    · simp [classifyError, hs, h1, h2]
  · intro s h1 h2 h3
    by_cases hs : s = ""
    · subst hs; exact absurd h3 (by decide)
    · simp [classifyError, hs, h1, h2, h3]
  · intro s h1 h2 h3 h4
    by_cases hs : s = ""
    · subst hs; exact absurd h4 (by decide)
    · simp [classifyError, hs, h1, h2, h3, h4]
  · intro s hs h1 h2 h3 h4
    simp [classifyError, hs, h1, h2, h3, h4]
  · intro k env m hm
    simp [streamDelivered, hm]
  · intro k polls m
    rfl

/-- Claim C3 amended witness: concrete classifications on each branch. -/
theorem error_taxonomy_amended_witness :
    classifyError (some "http 429") = rateLimitMsg ∧
    classifyError (some "http 503") = overloadedMsg ∧
    classifyError (some "bad API key") = apiConfigMsg ∧
    classifyError (some "SAFETY block") = safetyMsg ∧
    classifyError (some "boom") = "Error: boom" ∧
    (streamDelivered (some "k") ⟨[], some (some "boom")⟩).2
        = some (classifyError (some "boom")) ∧
    (generateVideo (some "k") (.fail 1 (some "429"))).1
        = Except.error videoFailMsg :=
  ⟨error_taxonomy_amended.1 "http 429" rfl,
   error_taxonomy_amended.2.1 "http 503" rfl rfl,
   error_taxonomy_amended.2.2.1 "bad API key" rfl rfl rfl,
   error_taxonomy_amended.2.2.2.1 "SAFETY block" rfl rfl rfl rfl,
   error_taxonomy_amended.2.2.2.2.1 "boom" (by decide) rfl rfl rfl rfl,
   error_taxonomy_amended.2.2.2.2.2.2.1 "k" ⟨[], some (some "boom")⟩
     (some "boom") rfl,
   error_taxonomy_amended.2.2.2.2.2.2.2 "k" 1 (some "429")⟩

/-- Claim C10: every by-id point mutation of the log — all five Store
mutations of the source (`chunk` folding, error finalization,
streaming-flag clearing, retry reset, feedback toggling) are
`patchById` applications — preserves the number and order of messages
(the id sequence is unchanged whenever the patch preserves the id, as
all five do), leaves every message at a position whose id differs from
the target unchanged, and leaves the log entirely unchanged when the
target id is absent. -/
theorem patch_frame (id : String) (f : Message → Message)
    (msgs : List Message) (hf : ∀ m, (f m).id = m.id) :
    ((patchById id f msgs).length = msgs.length) ∧
    ((patchById id f msgs).map Message.id = msgs.map Message.id) ∧
    (∀ (i : Nat) (m : Message), msgs[i]? = some m → m.id ≠ id →
        (patchById id f msgs)[i]? = some m) ∧
    ((∀ m ∈ msgs, m.id ≠ id) → patchById id f msgs = msgs) :=
  ⟨patchById_length id f msgs, patchById_ids id f hf msgs,
   fun i m h hne => patchById_get_frame id f msgs i m h hne,
   fun h => patchById_no_match id f msgs h⟩

/-- Claim C10 witness: the retry-reset patch applied to a concrete two-message
log leaves the non-target message in place and a log without the target
id unchanged. -/
theorem patch_frame_witness :
    (patchById "b" retryResetFn
        [⟨"u", Role.USER, "p", 0, false, none, false, none, none, none⟩])
      = [⟨"u", Role.USER, "p", 0, false, none, false, none, none, none⟩] ∧
    (patchById "b" retryResetFn
        [⟨"u", Role.USER, "p", 0, false, none, false, none, none, none⟩,
         ⟨"b", Role.MODEL, "old", 1, false, none, true, none, none, none⟩])[0]?
      = some ⟨"u", Role.USER, "p", 0, false, none, false, none, none, none⟩ :=
  ⟨(patch_frame "b" retryResetFn
      [⟨"u", Role.USER, "p", 0, false, none, false, none, none, none⟩]
      (fun m => rfl)).2.2.2 (by decide),
   (patch_frame "b" retryResetFn
      [⟨"u", Role.USER, "p", 0, false, none, false, none, none, none⟩,
       ⟨"b", Role.MODEL, "old", 1, false, none, true, none, none, none⟩]
      (fun m => rfl)).2.2.1 0
      ⟨"u", Role.USER, "p", 0, false, none, false, none, none, none⟩
      rfl (by decide)⟩

/-- Claim C1: for every sequence of N streamed chunks (including N=0)
delivered for the target message of a send, once the stream completes
successfully the target's content equals the concatenation of the
delivered chunks' text in delivery order, for every chunk count and
size. -/
theorem stream_content_concat (text : String) (attachment : Option Attachment)
    (userId botId : String) (ts : Nat) (k : String) (chunks : List RawChunk)
    (v : VideoEnv) (msgs : List Message) (st : ServiceState)
    (hroute : isVideoRequest text attachment = false)
    (hfresh : ∀ m ∈ msgs, m.id ≠ botId) (hub : userId ≠ botId) :
    ∀ m ∈ (handleSendMessage text attachment userId botId ts (some k)
            ⟨⟨chunks, none⟩, v⟩ msgs st).1,
      m.id = botId → m.content = concatTexts (chunks.map convertChunk) := by
  intro m hm hid
  have htrace : genTrace (some k) text attachment ⟨⟨chunks, none⟩, v⟩
      = chunkMuts (chunks.map convertChunk) ++ [.clearStreaming] := by
    simp [genTrace, hroute, streamDelivered, chunkMuts]
  unfold handleSendMessage generateResponse at hm
  dsimp only at hm
  rw [applyTrace_eq_patchById, htrace] at hm
  obtain ⟨m0, hm0, hid0, rfl⟩ := mem_patchById _ _ _ _ hm hid
  have hcontent : m0.content = "" := by
    simp only [List.mem_append, List.mem_cons, List.not_mem_nil] at hm0
    rcases hm0 with h | h | h | h
    · exact absurd hid0 (hfresh m0 h)
    · rw [h] at hid0; exact absurd hid0 hub
    · rw [h]
    · exact absurd h (by simp)
  rw [applyTraceMsg_append]
  have hclear : ∀ x : Message,
      (applyTraceMsg [Mut.clearStreaming] x).content = x.content := fun x => rfl
  rw [hclear, applyTraceMsg_chunks_content, hcontent, String.empty_append]

/-- Claim C1 witness: a concrete two-chunk stream yields content "hello" on
the target message. -/
theorem stream_content_concat_witness :
    (⟨"b", Role.MODEL, "hello", 0, false, none, false, none, none, none⟩
        : Message).content
      = concatTexts ([⟨some "he", none⟩,
          ⟨some "llo", none⟩].map convertChunk) :=
  stream_content_concat "hi" none "u" "b" 0 "k"
    [⟨some "he", none⟩, ⟨some "llo", none⟩] (.ok 0 none) [] ⟨none, 0⟩
    rfl (by simp) (by decide)
    ⟨"b", Role.MODEL, "hello", 0, false, none, false, none, none, none⟩
    (by decide) rfl

/-- Claim C8: after a completed stream the target's `groundingSources` equals
the sources list of the last delivered chunk whose sources list was
present and non-empty — never an accumulation — and is absent when no
such chunk arrived (the placeholder starts without sources); moreover a
chunk with an absent or empty sources list leaves the field of the
matching message unchanged. -/
theorem grounding_last_writer (text : String) (attachment : Option Attachment)
    (userId botId : String) (ts : Nat) (k : String) (chunks : List RawChunk)
    (v : VideoEnv) (msgs : List Message) (st : ServiceState)
    (hroute : isVideoRequest text attachment = false)
    (hfresh : ∀ m ∈ msgs, m.id ≠ botId) (hub : userId ≠ botId) :
    (∀ m ∈ (handleSendMessage text attachment userId botId ts (some k)
            ⟨⟨chunks, none⟩, v⟩ msgs st).1,
      m.id = botId →
        m.groundingSources = lastSources (chunks.map convertChunk)) ∧
    (∀ (t : String) (m : Message),
        (applyMutMsg (.chunk t none) m).groundingSources
          = m.groundingSources) ∧
    (∀ (t : String) (m : Message),
        (applyMutMsg (.chunk t (some [])) m).groundingSources
          = m.groundingSources) := by
  refine ⟨?_, fun t m => rfl, fun t m => by simp [applyMutMsg_chunk]⟩
  intro m hm hid
  have htrace : genTrace (some k) text attachment ⟨⟨chunks, none⟩, v⟩
      = chunkMuts (chunks.map convertChunk) ++ [.clearStreaming] := by
    simp [genTrace, hroute, streamDelivered, chunkMuts]
  unfold handleSendMessage generateResponse at hm
  dsimp only at hm
  rw [applyTrace_eq_patchById, htrace] at hm
  obtain ⟨m0, hm0, hid0, rfl⟩ := mem_patchById _ _ _ _ hm hid
  have hgs : m0.groundingSources = none := by
    simp only [List.mem_append, List.mem_cons, List.not_mem_nil] at hm0
    rcases hm0 with h | h | h | h
    · exact absurd hid0 (hfresh m0 h)
    · rw [h] at hid0; exact absurd hid0 hub
    · rw [h]
    · exact absurd h (by simp)
  rw [applyTraceMsg_append]
  have hclear : ∀ x : Message,
      (applyTraceMsg [Mut.clearStreaming] x).groundingSources
        = x.groundingSources := fun x => rfl
  rw [hclear, applyTraceMsg_chunks_sources, hgs]
  cases lastSources (chunks.map convertChunk) <;> rfl

/-- Claim C8 witness: with a sourced chunk followed by a source-less chunk the
target carries exactly the last non-empty sources list. -/
theorem grounding_last_writer_witness :
    (⟨"b", Role.MODEL, "ab", 0, false, some [⟨"t", "u"⟩], false, none, none,
        none⟩ : Message).groundingSources
      = lastSources ([⟨some "a", some [⟨some ⟨"t", "u"⟩⟩]⟩,
          ⟨some "b", none⟩].map convertChunk) :=
  (grounding_last_writer "hi" none "u" "b" 0 "k"
    [⟨some "a", some [⟨some ⟨"t", "u"⟩⟩]⟩, ⟨some "b", none⟩] (.ok 0 none)
    [] ⟨none, 0⟩ rfl (by simp) (by decide)).1
    ⟨"b", Role.MODEL, "ab", 0, false, some [⟨"t", "u"⟩], false, none, none,
      none⟩
    (by decide) rfl

/-- Claim C2: on any error of the remote call, in any route, the session
handle is unconditionally discarded and the target message is finalized
with `isError = true`, `isStreaming = false`, and content equal to the
classified error message (the message the error path computes,
`genOutcome`). -/
theorem error_finalization (apiKey : Option String) (prompt : String)
    (attachment : Option Attachment) (botId : String) (env : Env)
    (msgs : List Message) (st : ServiceState) (emsg : String)
    (h : genOutcome apiKey prompt attachment env = some emsg) :
    ((generateResponse apiKey prompt attachment botId env msgs st).2.chatSession
        = none) ∧
    ∀ m ∈ (generateResponse apiKey prompt attachment botId env msgs st).1,
      m.id = botId →
        m.content = emsg ∧ m.isStreaming = false ∧ m.isError = true := by
  refine ⟨genSession_error apiKey prompt attachment env st emsg h, ?_⟩
  intro m hm hid
  obtain ⟨pre, htrace, -⟩ := genTrace_error apiKey prompt attachment env emsg h
  unfold generateResponse at hm
  rw [applyTrace_eq_patchById, htrace] at hm
  obtain ⟨m0, hm0, hid0, rfl⟩ := mem_patchById _ _ _ _ hm hid
  exact applyTraceMsg_error_tail pre emsg m0

/-- Claim C2 witness: a SAFETY-blocked stream finalizes the concrete target
and clears a previously present session handle. -/
theorem error_finalization_witness :
    ((generateResponse (some "k") "hi" none "b"
        ⟨⟨[], some (some "SAFETY")⟩, .ok 0 none⟩
        [⟨"b", Role.MODEL, "", 0, true, none, false, none, none, none⟩]
        ⟨some 7, 8⟩).2.chatSession = none) ∧
    (⟨"b", Role.MODEL, safetyMsg, 0, false, none, true, none, none, none⟩
        : Message).content = safetyMsg ∧
    (⟨"b", Role.MODEL, safetyMsg, 0, false, none, true, none, none, none⟩
        : Message).isStreaming = false ∧
    (⟨"b", Role.MODEL, safetyMsg, 0, false, none, true, none, none, none⟩
        : Message).isError = true := by
  have h := error_finalization (some "k") "hi" none "b"
    ⟨⟨[], some (some "SAFETY")⟩, .ok 0 none⟩
    [⟨"b", Role.MODEL, "", 0, true, none, false, none, none, none⟩]
    ⟨some 7, 8⟩ safetyMsg (by decide)
  exact ⟨h.1, h.2
    ⟨"b", Role.MODEL, safetyMsg, 0, false, none, true, none, none, none⟩
    (by decide) rfl⟩

/-- Claim C9: the session handle is created lazily on the first text-only
turn and reused by subsequent text-only turns (no second lazy-create);
multimodal service calls and successful video turns never read or write
it; it becomes absent only through an explicit clear-conversation or a
request error, never through a successful turn; and two consecutive
successful text-only turns share the handle created by the first. -/
theorem session_lifecycle (k : String) (st : ServiceState) :
    (st.chatSession = none →
        streamSession (some k) none st
          = ⟨some st.nextHandle, st.nextHandle + 1⟩) ∧
    (∀ h : Nat, st.chatSession = some h →
        streamSession (some k) none st = st) ∧
    (∀ a : Attachment, streamSession (some k) (some a) st = st) ∧
    (∀ (prompt : String) (attachment : Option Attachment) (env : Env),
        isVideoRequest prompt attachment = true →
        genOutcome (some k) prompt attachment env = none →
        genSession (some k) prompt attachment env st = st) ∧
    (∀ msgs : List Message, (handleClearChat msgs st).2.chatSession = none) ∧
    (∀ (prompt : String) (attachment : Option Attachment) (env : Env)
        (emsg : String),
        genOutcome (some k) prompt attachment env = some emsg →
        (genSession (some k) prompt attachment env st).chatSession = none) ∧
    (∀ (prompt : String) (attachment : Option Attachment) (env : Env)
        (h : Nat), st.chatSession = some h →
        genOutcome (some k) prompt attachment env = none →
        (genSession (some k) prompt attachment env st).chatSession = some h) ∧
    (∀ (p1 p2 : String) (e1 e2 : Env), st.chatSession = none →
        genOutcome (some k) p1 none e1 = none →
        isVideoRequest p1 none = false →
        genOutcome (some k) p2 none e2 = none →
        (genSession (some k) p1 none e1 st).chatSession = some st.nextHandle ∧
        genSession (some k) p2 none e2 (genSession (some k) p1 none e1 st)
          = genSession (some k) p1 none e1 st) := by
  refine ⟨?_, ?_, ?_, ?_, ?_, ?_, ?_, ?_⟩
  · intro h
    simp [streamSession, h]
  · intro hdl h
    simp [streamSession, h]
  · intro a
    simp [streamSession]
  · intro prompt attachment env hv hok
    rw [genSession_ok _ _ _ _ _ hok, if_pos hv]
  · intro msgs
    rfl
  · intro prompt attachment env emsg herr
    exact genSession_error _ _ _ _ _ _ herr
  · intro prompt attachment env hdl hs hok
    rw [genSession_ok _ _ _ _ _ hok]
    by_cases hv : isVideoRequest prompt attachment = true
    · simp [hv, hs]
    · simp only [hv, if_false]
      unfold streamSession
      cases attachment with
      | some a => simp [hs]
      | none => simp [hs]
  · intro p1 p2 e1 e2 hs hok1 hv1 hok2
    have h1 : genSession (some k) p1 none e1 st
        = ⟨some st.nextHandle, st.nextHandle + 1⟩ := by
      rw [genSession_ok _ _ _ _ _ hok1, if_neg (by simp [hv1]),
        ]
      simp [streamSession, hs]
    refine ⟨by rw [h1], ?_⟩
    rw [h1, genSession_ok _ _ _ _ _ hok2]
    by_cases hv2 : isVideoRequest p2 none = true
    · simp [hv2]
    · simp only [hv2, if_false]
      simp [streamSession]

/-- Claim C9 witness: a concrete state with an existing handle is reused on a
text-only turn, a multimodal call leaves it alone, and an error clears
it. -/
theorem session_lifecycle_witness :
    streamSession (some "k") none ⟨some 3, 4⟩ = ⟨some 3, 4⟩ ∧
    streamSession (some "k") (some ⟨⟨"d", "image/png"⟩, none⟩) ⟨some 3, 4⟩
      = ⟨some 3, 4⟩ ∧
    streamSession (some "k") none ⟨none, 0⟩ = ⟨some 0, 1⟩ ∧
    (genSession (some "k") "hi" none ⟨⟨[], some (some "x")⟩, .ok 0 none⟩
      ⟨some 3, 4⟩).chatSession = none :=
  ⟨(session_lifecycle "k" ⟨some 3, 4⟩).2.1 3 rfl,
   (session_lifecycle "k" ⟨some 3, 4⟩).2.2.1 ⟨⟨"d", "image/png"⟩, none⟩,
   (session_lifecycle "k" ⟨none, 0⟩).1 rfl,
   (session_lifecycle "k" ⟨some 3, 4⟩).2.2.2.2.2.1 "hi" none
     ⟨⟨[], some (some "x")⟩, .ok 0 none⟩ "Error: x" (by decide)⟩

/-- Claim C6: retry on a message whose immediate predecessor is a USER message
resets the target in place (same id, the log's id sequence unchanged) to
empty content, `isError = false`, `isStreaming = true`, absent
`groundingSources`, and re-invokes generation with the predecessor's
original prompt and attachment (hence the same route classification);
when the message is absent, first in the log, or its predecessor is not
USER-authored, the retry is refused with no Store mutation. -/
theorem retry_behaviour (botId : String) (apiKey : Option String) (env : Env)
    (msgs : List Message) (st : ServiceState) :
    (msgs.findIdx? (fun m => m.id = botId) = none →
        handleRetry botId apiKey env msgs st = (msgs, st)) ∧
    (msgs.findIdx? (fun m => m.id = botId) = some 0 →
        handleRetry botId apiKey env msgs st = (msgs, st)) ∧
    (∀ (i : Nat) (prev : Message),
        msgs.findIdx? (fun m => m.id = botId) = some (i + 1) →
        msgs[i]? = some prev → prev.role ≠ Role.USER →
        handleRetry botId apiKey env msgs st = (msgs, st)) ∧
    (∀ (i : Nat) (prev : Message),
        msgs.findIdx? (fun m => m.id = botId) = some (i + 1) →
        msgs[i]? = some prev → prev.role = Role.USER →
        handleRetry botId apiKey env msgs st
          = generateResponse apiKey prev.content prev.attachment botId env
              (patchById botId retryResetFn msgs) st) ∧
    (∀ m : Message, (retryResetFn m).id = m.id ∧ (retryResetFn m).content = ""
        ∧ (retryResetFn m).isError = false ∧ (retryResetFn m).isStreaming = true
        ∧ (retryResetFn m).groundingSources = none) ∧
    ((patchById botId retryResetFn msgs).map Message.id
        = msgs.map Message.id) := by
  refine ⟨?_, ?_, ?_, ?_, fun m => ⟨rfl, rfl, rfl, rfl, rfl⟩,
    patchById_ids botId retryResetFn (fun m => rfl) msgs⟩
  · intro h
    simp [handleRetry, h]
  · intro h
    simp [handleRetry, h]
  · intro i prev hidx hprev hrole
    simp [handleRetry, hidx, hprev, hrole]
  · intro i prev hidx hprev hrole
    simp [handleRetry, hidx, hprev, hrole]

/-- Claim C6 witness: a concrete valid retry re-runs generation on the reset
log, and a retry whose target is first in the log is refused. -/
theorem retry_behaviour_witness :
    handleRetry "b" (some "k") ⟨⟨[], none⟩, .ok 0 none⟩
        [⟨"u", Role.USER, "p", 0, false, none, false, none, none, none⟩,
         ⟨"b", Role.MODEL, "old", 1, false, none, true, none, none, none⟩]
        ⟨some 5, 6⟩
      = generateResponse (some "k") "p" none "b" ⟨⟨[], none⟩, .ok 0 none⟩
          (patchById "b" retryResetFn
            [⟨"u", Role.USER, "p", 0, false, none, false, none, none, none⟩,
             ⟨"b", Role.MODEL, "old", 1, false, none, true, none, none, none⟩])
          ⟨some 5, 6⟩ ∧
    handleRetry "b" (some "k") ⟨⟨[], none⟩, .ok 0 none⟩
        [⟨"b", Role.MODEL, "old", 1, false, none, true, none, none, none⟩]
        ⟨some 5, 6⟩
      = ([⟨"b", Role.MODEL, "old", 1, false, none, true, none, none, none⟩],
         ⟨some 5, 6⟩) :=
  ⟨(retry_behaviour "b" (some "k") ⟨⟨[], none⟩, .ok 0 none⟩
      [⟨"u", Role.USER, "p", 0, false, none, false, none, none, none⟩,
       ⟨"b", Role.MODEL, "old", 1, false, none, true, none, none, none⟩]
      ⟨some 5, 6⟩).2.2.2.1 0
      ⟨"u", Role.USER, "p", 0, false, none, false, none, none, none⟩
      (by decide) rfl rfl,
   (retry_behaviour "b" (some "k") ⟨⟨[], none⟩, .ok 0 none⟩
      [⟨"b", Role.MODEL, "old", 1, false, none, true, none, none, none⟩]
      ⟨some 5, 6⟩).2.1 (by decide)⟩

/-- Claim C7: on a video-generation send, the target's content is first
overwritten synchronously with the interim notice; the operation is
polled at a fixed 5-second (5000 ms) interval until done; on completion
the access credential is appended to the produced URI and the message is
finalized with `video.uri` set and `isStreaming = false`; when no URI is
produced the attempt goes to the shared error path. -/
theorem video_route_behaviour (prompt : String) (attachment : Option Attachment)
    (k botId : String) (polls : Nat) (senv : StreamEnv)
    (msgs : List Message) (st : ServiceState)
    (hroute : isVideoRequest prompt attachment = true) :
    (∀ u : Option String,
        (genTrace (some k) prompt attachment ⟨senv, .ok polls u⟩).head?
          = some Mut.interimVideo) ∧
    (∀ m : Message, (applyMutMsg .interimVideo m).content = videoInterimMsg) ∧
    (∀ u : Option String,
        (generateVideo (some k) (.ok polls u)).2 = List.replicate polls 5000) ∧
    (∀ uri : String,
        (generateVideo (some k) (.ok polls (some uri))).1
          = Except.ok (uri ++ "&key=" ++ k)) ∧
    (∀ (uri : String), ∀ m ∈ (generateResponse (some k) prompt attachment
          botId ⟨senv, .ok polls (some uri)⟩ msgs st).1,
        m.id = botId →
          m.video = some ⟨uri ++ "&key=" ++ k, none⟩ ∧ m.isStreaming = false ∧
          m.content = videoDoneMsg) ∧
    (genOutcome (some k) prompt attachment ⟨senv, .ok polls none⟩
        = some videoFailMsg) := by
  have happ : appErrContent videoFailMsg = videoFailMsg := by decide
  refine ⟨?_, fun m => rfl, ?_, fun uri => rfl, ?_, ?_⟩
  · intro u
    cases u <;> simp [genTrace, hroute, generateVideo]
  · intro u
    cases u <;> rfl
  · intro uri m hm hid
    have htrace : genTrace (some k) prompt attachment ⟨senv, .ok polls (some uri)⟩
        = [.interimVideo, .videoDone (uri ++ "&key=" ++ k), .clearStreaming] := by
      simp [genTrace, hroute, generateVideo]
    unfold generateResponse at hm
    dsimp only at hm
    rw [applyTrace_eq_patchById, htrace] at hm
    obtain ⟨m0, hm0, hid0, rfl⟩ := mem_patchById _ _ _ _ hm hid
    exact ⟨rfl, rfl, rfl⟩
  · simp [genOutcome, hroute, generateVideo, happ]

/-- Claim C7 witness: a concrete video send with two polls. -/
theorem video_route_behaviour_witness :
    (genTrace (some "k") "make a video of x" none
        ⟨⟨[], none⟩, .ok 2 (some "U")⟩).head? = some Mut.interimVideo ∧
    (generateVideo (some "k") (.ok 2 (some "U"))).2 = List.replicate 2 5000 ∧
    (⟨"b", Role.MODEL, videoDoneMsg, 0, false, none, false, none, none,
        some ⟨"U&key=k", none⟩⟩ : Message).video = some ⟨"U&key=k", none⟩ ∧
    genOutcome (some "k") "make a video of x" none ⟨⟨[], none⟩, .ok 2 none⟩
      = some videoFailMsg := by
  have h := video_route_behaviour "make a video of x" none "k" "b" 2
    ⟨[], none⟩ [⟨"b", Role.MODEL, "", 0, true, none, false, none, none,
      none⟩] ⟨none, 0⟩ (by decide)
  exact ⟨h.1 (some "U"), h.2.2.1 (some "U"),
    (h.2.2.2.2.1 "U"
      ⟨"b", Role.MODEL, videoDoneMsg, 0, false, none, false, none, none,
        some ⟨"U&key=k", none⟩⟩ (by decide) rfl).1,
    h.2.2.2.2.2⟩

/-- Claim C5 counterexample: on an attempt that fails after one streamed
chunk, the trace contains two mutations that write `isStreaming = false`
(the catch finalization and the `finally` clear), so the flag is not
cleared exactly once by the last Store mutation as claimed. -/
theorem finalization_counterexample :
    genTrace (some "k") "hi" none
        ⟨⟨[⟨some "a", none⟩], some (some "x")⟩, .ok 0 none⟩
      = [Mut.chunk "a" none, Mut.errorFinalize "Error: x",
         Mut.clearStreaming] ∧
    ¬(((genTrace (some "k") "hi" none
          ⟨⟨[⟨some "a", none⟩], some (some "x")⟩, .ok 0 none⟩).filter
        setsStreamingFalse).length = 1) := by
  constructor
  · decide
  · decide

/-- Claim C5 amended: on the success path the streaming flag is written
`false` exactly once, by the last Store mutation of the attempt; on the
error path the catch finalization writes it `false` and the final
`finally` mutation writes it `false` a second, redundant time; no
mutation ever sets it back to `true`, so the flag value transitions
`true → false` exactly once and the target always ends with
`isStreaming = false`; partially streamed content is preserved on
success (the final content extends the initial content by every
delivered chunk) and replaced wholesale by the classified message on
error. -/
theorem finalization_amended (apiKey : Option String) (prompt : String)
    (attachment : Option Attachment) (env : Env) :
    (genOutcome apiKey prompt attachment env = none →
        (genTrace apiKey prompt attachment env).filter setsStreamingFalse
          = [Mut.clearStreaming] ∧
        (genTrace apiKey prompt attachment env).getLast?
          = some Mut.clearStreaming) ∧
    (∀ emsg : String, genOutcome apiKey prompt attachment env = some emsg →
        ∃ pre, genTrace apiKey prompt attachment env
            = pre ++ [Mut.errorFinalize emsg, Mut.clearStreaming] ∧
          pre.filter setsStreamingFalse = [] ∧
          (genTrace apiKey prompt attachment env).getLast?
            = some Mut.clearStreaming) ∧
    (∀ mu : Mut, ∀ m : Message, m.isStreaming = false →
        (applyMutMsg mu m).isStreaming = false) ∧
    (∀ m : Message,
        (applyTraceMsg (genTrace apiKey prompt attachment env) m).isStreaming
          = false) ∧
    (isVideoRequest prompt attachment = false →
        genOutcome apiKey prompt attachment env = none →
        ∀ m : Message,
          (applyTraceMsg (genTrace apiKey prompt attachment env) m).content
            = m.content ++ concatTexts (streamDelivered apiKey env.stream).1) ∧
    (∀ emsg : String, genOutcome apiKey prompt attachment env = some emsg →
        ∀ m : Message,
          (applyTraceMsg (genTrace apiKey prompt attachment env) m).content
            = emsg) := by
  refine ⟨?_, ?_, applyMutMsg_flag_monotone, ?_, ?_, ?_⟩
  · intro h
    rcases genTrace_ok apiKey prompt attachment env h with ⟨uri, htr⟩ | htr
    · rw [htr]
      exact ⟨by simp [setsStreamingFalse], by simp⟩
    · rw [htr]
      constructor
      · rw [List.filter_append, chunkMuts_filter]
        simp [setsStreamingFalse]
      · exact List.getLast?_concat _
  · intro emsg h
    obtain ⟨pre, htr, hfil⟩ := genTrace_error apiKey prompt attachment env emsg h
    refine ⟨pre, htr, hfil, ?_⟩
    rw [htr]
    have : pre ++ [Mut.errorFinalize emsg, Mut.clearStreaming]
        = (pre ++ [Mut.errorFinalize emsg]) ++ [Mut.clearStreaming] := by
      simp
    rw [this]
    exact List.getLast?_concat _
  · intro m
    cases h : genOutcome apiKey prompt attachment env with
    | none =>
      rcases genTrace_ok apiKey prompt attachment env h with ⟨uri, htr⟩ | htr
      · rw [htr]; rfl
      · rw [htr, applyTraceMsg_append]; rfl
    | some emsg =>
      obtain ⟨pre, htr, -⟩ := genTrace_error apiKey prompt attachment env emsg h
      rw [htr]
      exact (applyTraceMsg_error_tail pre emsg m).2.1
  · intro hv h m
    have he : (streamDelivered apiKey env.stream).2 = none := by
      unfold genOutcome at h
      rw [if_neg (by simp [hv])] at h
      exact Option.map_eq_none'.mp h
    have htrace : genTrace apiKey prompt attachment env
        = chunkMuts (streamDelivered apiKey env.stream).1
            ++ [.clearStreaming] := by
      unfold genTrace
      rw [if_neg (by simp [hv])]
      simp [he, chunkMuts]
    rw [htrace, applyTraceMsg_append]
    have hclear : ∀ x : Message,
        (applyTraceMsg [Mut.clearStreaming] x).content = x.content :=
      fun x => rfl
    rw [hclear, applyTraceMsg_chunks_content]
  · intro emsg h m
    obtain ⟨pre, htr, -⟩ := genTrace_error apiKey prompt attachment env emsg h
    rw [htr]
    exact (applyTraceMsg_error_tail pre emsg m).1

/-- Claim C5 amended witness: concrete success and error traces. -/
theorem finalization_amended_witness :
    (genTrace (some "k") "hi" none ⟨⟨[⟨some "a", none⟩], none⟩,
        .ok 0 none⟩).filter setsStreamingFalse = [Mut.clearStreaming] ∧
    (applyTraceMsg (genTrace (some "k") "hi" none
        ⟨⟨[⟨some "a", none⟩], some (some "x")⟩, .ok 0 none⟩)
        ⟨"b", Role.MODEL, "a", 0, true, none, false, none, none, none⟩).content
      = "Error: x" :=
  ⟨(finalization_amended (some "k") "hi" none
      ⟨⟨[⟨some "a", none⟩], none⟩, .ok 0 none⟩).1 (by decide) |>.1,
   (finalization_amended (some "k") "hi" none
      ⟨⟨[⟨some "a", none⟩], some (some "x")⟩, .ok 0 none⟩).2.2.2.2.2
      "Error: x" (by decide)
      ⟨"b", Role.MODEL, "a", 0, true, none, false, none, none, none⟩⟩

end AimChatbot
